import Mathlib

/-!
Verification of the whm-alert CI/CD pipeline alerting tool
(`src/index.ts`) against its natural-language specification.

The embedding models the transition detector inside `checkPipeline`
(lines 64-117), the alert dispatcher `sendAlert` (lines 130-176), the
startup configuration check (lines 53-56), and the poll loop as a fold
over a list of fetch results. Network effects are abstracted: a poll
cycle's fetch outcome is an `Except FetchError (Option RunSnapshot)`
input, and each sink delivery's outcome is given by an oracle
`deliver : SinkKind → DeliveryOutcome`, corresponding to whether the
`axios.post` inside each try/catch block throws.
-/

namespace WhmAlert

/-- The snapshot of the latest pipeline run handed to the detector:
`runId = String(latestRun.id)` and `status`, which is
`latestRun.conclusion` for GitHub (possibly null, hence `Option`) or
`latestRun.status` for GitLab (line 94-95 of `src/index.ts`). -/
structure RunSnapshot where
  id : String
  status : Option String
deriving DecidableEq, Repr

/-- The two alert types passed to `sendAlert` (line 100 and 102):
the string literals `'failure'` and `'recovery'`. -/
inductive AlertType where
  | failure
  | recovery
deriving DecidableEq, Repr

/-- Errors raised by a fetch (HTTP/auth errors from `axios.get`),
caught by the try/catch wrapping the body of `checkPipeline`
(lines 114-116). -/
inductive FetchError where
  | transient
  | auth
  | notFound
deriving DecidableEq, Repr

/-- The configuration assembled by `program.action` (lines 41-51).
Only the fields the detector and dispatcher read are modelled. -/
structure AlertConfig where
  owner : String
  repo : String
  webhookUrl : Option String
  slackWebhook : Option String
deriving DecidableEq, Repr

/-- One successful poll cycle of `checkPipeline` (lines 92-112), after
the fetch has produced `latestRun` (`none` models the early return at
line 92 when no run exists). Returns the updated `lastRunId` closure
variable and the list of `sendAlert` invocations made this cycle, in
order. Mirrors the source: the alert branch (lines 98-104) fires only
when `lastRunId` is non-null and the id differs; `lastRunId` is
assigned only in the `if (!lastRunId)` branch (lines 107-108). -/
def checkPipelineCore (lastRunId : Option String)
    (latestRun : Option RunSnapshot) : Option String × List AlertType :=
  match latestRun with
  | none => (lastRunId, [])
  | some run =>
      let alerts :=
        match lastRunId with
        | some prev =>
            if run.id ≠ prev then
              if run.status = some "failure" ∨ run.status = some "failed" then
                [AlertType.failure]
              else if run.status = some "success" ∨ run.status = some "success" then
                [AlertType.recovery]
              else []
            else []
        | none => []
      let lastRunId' :=
        match lastRunId with
        | none => some run.id
        | some prev => some prev
      (lastRunId', alerts)

/-- One full poll cycle of `checkPipeline` including the surrounding
try/catch (lines 64-117): a fetch error is logged and swallowed, the
cycle emits no alert and leaves `lastRunId` unchanged. -/
def checkPipeline (lastRunId : Option String)
    (fetched : Except FetchError (Option RunSnapshot)) :
    Option String × List AlertType :=
  match fetched with
  | .error _ => (lastRunId, [])
  | .ok latestRun => checkPipelineCore lastRunId latestRun

/-- The poll loop (initial check at line 120 plus the `setInterval`
ticks at line 124): sequential cycles threading `lastRunId`, with the
alerts of every cycle concatenated in order. -/
def runPolls (lastRunId : Option String)
    (polls : List (Except FetchError (Option RunSnapshot))) :
    Option String × List AlertType :=
  polls.foldl
    (fun acc p =>
      let step := checkPipeline acc.1 p
      (step.1, acc.2 ++ step.2))
    (lastRunId, [])

/-- Startup configuration errors (error taxonomy of the spec); the
source exits with an error message at lines 53-56. -/
inductive ConfigError where
  | noSinksConfigured
deriving DecidableEq, Repr

/-- The body of `program.action` after the config is assembled
(lines 53-125): the zero-sink check at lines 53-56 runs before the
initial `checkPipeline()` call and before the watch loop; on failure
the process exits without any poll. On success the poll loop runs. -/
def runProgram (config : AlertConfig)
    (polls : List (Except FetchError (Option RunSnapshot))) :
    Except ConfigError (Option String × List AlertType) :=
  if config.webhookUrl = none ∧ config.slackWebhook = none then
    .error .noSinksConfigured
  else
    .ok (runPolls none polls)

/-- One field of a Slack attachment (lines 144-148). -/
structure SlackField where
  title : String
  value : String
  short : Option Bool
deriving DecidableEq, Repr

/-- One Slack attachment (lines 142-149). -/
structure SlackAttachment where
  color : String
  fields : List SlackField
deriving DecidableEq, Repr

/-- The Slack-style payload built by `sendAlert` (lines 140-150). -/
structure SlackPayload where
  text : String
  attachments : List SlackAttachment
deriving DecidableEq, Repr

/-- The generic-webhook payload posted at lines 165-170. `timestamp`
is the `new Date().toISOString()` value taken at dispatch, passed in
as `now`. -/
structure WebhookPayload where
  event : String
  repository : String
  timestamp : String
  run : RunSnapshot
deriving DecidableEq, Repr

/-- The string `sendAlert` puts in the generic webhook's `event`
field: its `type` argument, `'failure'` or `'recovery'`. -/
def AlertType.text : AlertType → String
  | .failure => "failure"
  | .recovery => "recovery"

/-- The Slack payload construction of `sendAlert` (lines 131-150). -/
def slackPayload (config : AlertConfig) (type : AlertType) : SlackPayload :=
  let repoName := config.owner ++ "/" ++ config.repo
  let message :=
    if type = .failure then "🚨 Pipeline Failed: " ++ repoName
    else "✅ Pipeline Recovered: " ++ repoName
  let details :=
    if type = .failure then
      "The pipeline has failed. Check the logs for more details."
    else "The pipeline is now passing again."
  { text := message
    attachments := [
      { color := if type = .failure then "#ff0000" else "#00ff00"
        fields := [
          ⟨"Repository", repoName, some true⟩,
          ⟨"Status", if type = .failure then "FAILED" else "PASSED", some true⟩,
          ⟨"Details", details, none⟩] }] }

/-- The generic-webhook payload construction of `sendAlert`
(lines 165-170). -/
def webhookPayload (config : AlertConfig) (run : RunSnapshot)
    (type : AlertType) (now : String) : WebhookPayload :=
  { event := type.text
    repository := config.owner ++ "/" ++ config.repo
    timestamp := now
    run := run }

/-- The two sink kinds `sendAlert` can post to. -/
inductive SinkKind where
  | slack
  | webhook
deriving DecidableEq, Repr

/-- Outcome of one `axios.post` to a sink: `ok` if it resolved,
`error` if it threw (and was caught by the per-sink try/catch). -/
inductive DeliveryOutcome where
  | ok
  | error
deriving DecidableEq, Repr

/-- The wire payload handed to a sink's `axios.post`. -/
inductive SentPayload where
  | slack (p : SlackPayload)
  | webhook (p : WebhookPayload)
deriving DecidableEq, Repr

/-- One delivery attempt recorded by `sendAlert`: which sink, what
payload was posted, and whether the post succeeded or threw. -/
structure Attempt where
  sink : SinkKind
  payload : SentPayload
  outcome : DeliveryOutcome
deriving DecidableEq, Repr

/-- `sendAlert` (lines 130-176): posts to Slack when
`config.slackWebhook` is set (lines 153-160), then to the generic
webhook when `config.webhookUrl` is set (lines 163-175). Each post is
wrapped in its own try/catch that logs and swallows the error, so an
attempt is made to every configured sink regardless of the other's
outcome and the function always returns normally; the returned list
records the attempts in source order. -/
def sendAlert (config : AlertConfig) (run : RunSnapshot)
    (type : AlertType) (now : String)
    (deliver : SinkKind → DeliveryOutcome) : List Attempt :=
  let slackAttempts :=
    match config.slackWebhook with
    | some _ =>
        [⟨SinkKind.slack, SentPayload.slack (slackPayload config type),
          deliver SinkKind.slack⟩]
    | none => []
  let webhookAttempts :=
    match config.webhookUrl with
    | some _ =>
        [⟨SinkKind.webhook,
          SentPayload.webhook (webhookPayload config run type now),
          deliver SinkKind.webhook⟩]
    | none => []
  slackAttempts ++ webhookAttempts

/-- Single poll step of `checkPipeline` from a tracking state never
changes `lastRunId`: line 108 is the only assignment and it is guarded
by `if (!lastRunId)`. -/
theorem checkPipeline_fst_some (x : String)
    (p : Except FetchError (Option RunSnapshot)) :
    (checkPipeline (some x) p).1 = some x := by
  cases p with
  | error e => rfl
  | ok o =>
      cases o with
      | none => rfl
      | some run => rfl

/-- The poll-loop fold from a tracking state keeps `lastRunId` fixed,
for any accumulated alert list. -/
theorem runPolls_fold_fst_some (x : String)
    (acc : Option String × List AlertType) (hacc : acc.1 = some x)
    (polls : List (Except FetchError (Option RunSnapshot))) :
    (polls.foldl
      (fun acc p =>
        let step := checkPipeline acc.1 p
        (step.1, acc.2 ++ step.2)) acc).1 = some x := by
  induction polls generalizing acc with
  | nil => exact hacc
  | cons p ps ih =>
      rw [List.foldl_cons]
      refine ih _ ?_
      show (checkPipeline acc.1 p).1 = some x
      rw [hacc]
      exact checkPipeline_fst_some x p

/-- C1: the claim states that on every poll observing a snapshot whose
id differs from the non-null `lastSeenId`, the detector updates
`lastSeenId` to the new id before the next poll. The code does not:
with `lastRunId = "A"` and a fetched run `{id: "B", status: failure}`,
`checkPipeline` emits the failure alert but leaves `lastRunId = "A"`,
because the only assignment to `lastRunId` (line 108) is inside the
`if (!lastRunId)` branch. -/
theorem C1_baseline_not_advanced_on_id_change :
    checkPipeline (some "A") (Except.ok (some ⟨"B", some "failure"⟩)) =
      (some "A", [AlertType.failure]) := by decide

/-- C2: the claim states that after a baseline snapshot with id A,
n repeated observations of a failing snapshot with id B ≠ A emit
exactly one Failure notification in total. The code emits one per
poll: starting uninitialized, polling A(success), then B(failure)
twice, produces two failure alerts, because `lastRunId` stays "A" and
every poll of B re-enters the alert branch at line 98. -/
theorem C2_realerts_every_poll_of_new_failing_run :
    (runPolls none
        [Except.ok (some ⟨"A", some "success"⟩),
         Except.ok (some ⟨"B", some "failure"⟩),
         Except.ok (some ⟨"B", some "failure"⟩)]).2 =
      [AlertType.failure, AlertType.failure] := by decide

/-- C3: on the first ever observed snapshot (`lastRunId` null), no
alert is emitted whatever the status, and the snapshot's id is
recorded as the baseline (lines 98 guard fails because `lastRunId` is
null; lines 107-108 store the id). -/
theorem C3_first_observation_records_id_no_alert (run : RunSnapshot) :
    checkPipeline none (Except.ok (some run)) = (some run.id, []) := rfl

/-- C4: when the observed snapshot's id equals the current
`lastRunId`, no alert is emitted and the state is unchanged, for any
status — including a status that differs from the one previously seen
for that id (the status is never stored, only the id is compared). -/
theorem C4_same_id_no_alert_state_unchanged (i : String)
    (st : Option String) :
    checkPipeline (some i) (Except.ok (some ⟨i, st⟩)) = (some i, []) := by
  simp [checkPipeline, checkPipelineCore]

/-- C5: with a non-null `lastRunId` and a new run id, classification
depends only on the status string: "failure" and "failed" both emit a
failure alert, "success" emits a recovery alert, and any other status
(pending/unknown, including a null conclusion) emits nothing
(lines 99-103). -/
theorem C5_classification_by_status (prev i : String)
    (st : Option String) (h : i ≠ prev) :
    (checkPipeline (some prev)
        (Except.ok (some ⟨i, some "failure"⟩))).2 = [AlertType.failure] ∧
    (checkPipeline (some prev)
        (Except.ok (some ⟨i, some "failed"⟩))).2 = [AlertType.failure] ∧
    (checkPipeline (some prev)
        (Except.ok (some ⟨i, some "success"⟩))).2 = [AlertType.recovery] ∧
    (st ≠ some "failure" → st ≠ some "failed" → st ≠ some "success" →
      (checkPipeline (some prev) (Except.ok (some ⟨i, st⟩))).2 = []) := by
  refine ⟨?_, ?_, ?_, fun h1 h2 h3 => ?_⟩
  · simp [checkPipeline, checkPipelineCore, h]
  · simp [checkPipeline, checkPipelineCore, h]
  · simp [checkPipeline, checkPipelineCore, h]
  · simp [checkPipeline, checkPipelineCore, h, h1, h2, h3]

/-- Witness for C5 at `prev = "A"`, `i = "B"`, `st = some "queued"`. -/
theorem C5_classification_by_status_witness :
    (checkPipeline (some "A")
        (Except.ok (some ⟨"B", some "failed"⟩))).2 = [AlertType.failure] ∧
    (checkPipeline (some "A")
        (Except.ok (some ⟨"B", some "queued"⟩))).2 = [] :=
  ⟨(C5_classification_by_status "A" "B" (some "queued") (by decide)).2.1,
   (C5_classification_by_status "A" "B" (some "queued")
      (by decide)).2.2.2 (by decide) (by decide) (by decide)⟩

/-- C6: when both sinks are configured, `sendAlert` makes exactly one
delivery attempt to Slack and exactly one to the generic webhook, in
that order, and each attempt's outcome is exactly what the delivery
environment assigns to that sink — independent of the other sink's
outcome. `sendAlert` is a total function into the attempt log, so no
delivery error propagates to the caller (each post sits in its own
try/catch, lines 153-160 and 163-175). -/
theorem C6_sink_isolation (config : AlertConfig) (run : RunSnapshot)
    (type : AlertType) (now : String)
    (deliver : SinkKind → DeliveryOutcome)
    (hs : config.slackWebhook ≠ none) (hw : config.webhookUrl ≠ none) :
    (sendAlert config run type now deliver).map Attempt.sink =
        [SinkKind.slack, SinkKind.webhook] ∧
    (sendAlert config run type now deliver).map Attempt.outcome =
        [deliver SinkKind.slack, deliver SinkKind.webhook] := by
  obtain ⟨s, hs'⟩ := Option.ne_none_iff_exists'.mp hs
  obtain ⟨w, hw'⟩ := Option.ne_none_iff_exists'.mp hw
  simp [sendAlert, hs', hw']

/-- A delivery environment in which the Slack post always throws and
the generic-webhook post always succeeds. -/
def deliverSlackFails : SinkKind → DeliveryOutcome
  | SinkKind.slack => DeliveryOutcome.error
  | SinkKind.webhook => DeliveryOutcome.ok

/-- Witness for C6: with both sinks configured and a failing Slack
sink, the webhook sink still gets its single successful attempt. -/
theorem C6_sink_isolation_witness :
    (sendAlert ⟨"octo", "app", some "hookW", some "hookS"⟩
        ⟨"B", some "failure"⟩ AlertType.failure "2024-01-01T00:00:00Z"
        deliverSlackFails).map Attempt.outcome =
      [DeliveryOutcome.error, DeliveryOutcome.ok] :=
  (C6_sink_isolation ⟨"octo", "app", some "hookW", some "hookS"⟩
      ⟨"B", some "failure"⟩ AlertType.failure "2024-01-01T00:00:00Z"
      deliverSlackFails (by decide) (by decide)).2

/-- C7: a configuration with neither a generic-webhook URL nor a Slack
URL makes the program exit with the no-sinks configuration error
before the poll loop runs: the result is the error for every possible
sequence of fetch outcomes, so no fetch is ever consulted
(lines 53-56 precede the initial `checkPipeline()` call). -/
theorem C7_no_sinks_fails_fast (config : AlertConfig)
    (polls : List (Except FetchError (Option RunSnapshot)))
    (hw : config.webhookUrl = none) (hs : config.slackWebhook = none) :
    runProgram config polls = Except.error ConfigError.noSinksConfigured := by
  simp [runProgram, hw, hs]

/-- Witness for C7 with a sink-less config and a nonempty poll list. -/
theorem C7_no_sinks_fails_fast_witness :
    runProgram ⟨"octo", "app", none, none⟩
        [Except.ok (some ⟨"A", some "failure"⟩)] =
      Except.error ConfigError.noSinksConfigured :=
  C7_no_sinks_fails_fast ⟨"octo", "app", none, none⟩
    [Except.ok (some ⟨"A", some "failure"⟩)] rfl rfl

/-- C8: a poll cycle whose fetch fails emits no alert and leaves
`lastRunId` untouched (the try/catch at lines 114-116 swallows the
error), and the poll loop simply proceeds: prepending a failed cycle
to any poll sequence changes neither the final state nor the emitted
alerts. -/
theorem C8_fetch_error_swallowed (lastRunId : Option String)
    (e : FetchError)
    (polls : List (Except FetchError (Option RunSnapshot))) :
    checkPipeline lastRunId (Except.error e) = (lastRunId, []) ∧
    runPolls lastRunId (Except.error e :: polls) = runPolls lastRunId polls :=
  ⟨rfl, rfl⟩

/-- C9: the generic-webhook payload carries `event = "failure"` or
`"recovery"` matching the alert type, `repository = owner ++ "/" ++
repo`, the dispatch-time ISO timestamp, and the run snapshot
(lines 165-170); the Slack payload's single attachment has color
"#ff0000" for a failure and "#00ff00" for a recovery (line 143).
These are exactly the payloads `sendAlert` posts. -/
theorem C9_payload_shapes (config : AlertConfig) (run : RunSnapshot)
    (now : String) :
    (webhookPayload config run AlertType.failure now).event = "failure" ∧
    (webhookPayload config run AlertType.recovery now).event = "recovery" ∧
    (webhookPayload config run AlertType.failure now).repository =
        config.owner ++ "/" ++ config.repo ∧
    (webhookPayload config run AlertType.recovery now).repository =
        config.owner ++ "/" ++ config.repo ∧
    (webhookPayload config run AlertType.failure now).timestamp = now ∧
    (webhookPayload config run AlertType.recovery now).timestamp = now ∧
    (webhookPayload config run AlertType.failure now).run = run ∧
    (webhookPayload config run AlertType.recovery now).run = run ∧
    (slackPayload config AlertType.failure).attachments.map
        SlackAttachment.color = ["#ff0000"] ∧
    (slackPayload config AlertType.recovery).attachments.map
        SlackAttachment.color = ["#00ff00"] := by
  refine ⟨rfl, rfl, rfl, rfl, rfl, rfl, rfl, rfl, ?_, ?_⟩ <;>
    simp [slackPayload]

/-- C10: `lastRunId` is write-once: from any tracking state
`some x`, an arbitrary sequence of polls — successful fetches with
any ids and statuses, empty fetches, and fetch errors — leaves
`lastRunId = some x`, so every later poll compares against the first
ever observed run id. -/
theorem C10_lastSeenId_write_once (x : String)
    (polls : List (Except FetchError (Option RunSnapshot))) :
    (runPolls (some x) polls).1 = some x :=
  runPolls_fold_fst_some x ((some x : Option String), []) rfl polls

end WhmAlert
